import Mathlib

/-!
Verification of the mmcli naming/classification engine.

A shallow embedding of the naming core of the `mmcli` repository
(`src/naming/{abbreviations,converters,detectors,generator,analyzer}.rs`
and `src/naming/templates/*.rs`), together with theorems settling the
frozen claims about it.

Modelling conventions:
* Rust `String`/`&str` values are Lean `String`s; all character-level
  operations are performed on `String.data : List Char`.
* Rust's ASCII-oriented operations (`eq_ignore_ascii_case`,
  `char::is_ascii_digit`) are modelled exactly; `str::to_lowercase` /
  `str::to_uppercase` are modelled by the ASCII case maps
  `Char.toLower` / `Char.toUpper` (the catalog text the engine handles
  is ASCII).
* Rust `f64` arithmetic in `converters.rs` is modelled by `ℚ`.  The
  values the converter manipulates (inch fractions with power-of-two or
  small denominators) are handled exactly by both.
* `HashMap<String, _>` tables built by repeated `insert` with pairwise
  distinct keys are modelled as association lists looked up with
  `List.lookup` (exact key equality, as in the source).
-/

/-! ## String primitives (models of the Rust std functions used) -/

/-- Rust `str::contains(pat)`: substring test. -/
def strContains (hay pat : String) : Bool :=
  decide (pat.data <:+: hay.data)

/-- Rust `str::starts_with(pat)` (also used for `starts_with('c')`). -/
def strStartsWith (s pat : String) : Bool :=
  decide (pat.data <+: s.data)

/-- Rust `str::ends_with(pat)`. -/
def strEndsWith (s pat : String) : Bool :=
  decide (pat.data <:+ s.data)

/-- Rust `str::eq_ignore_ascii_case`. -/
def strEqIgnoreCase (a b : String) : Bool :=
  a.data.map Char.toLower == b.data.map Char.toLower

/-- Rust `str::to_lowercase` (ASCII case map, see header). -/
def strToLower (s : String) : String :=
  String.mk (s.data.map Char.toLower)

/-- Rust `str::to_uppercase` (ASCII case map, see header). -/
def strToUpper (s : String) : String :=
  String.mk (s.data.map Char.toUpper)

/-- Rust `str::trim`: strip whitespace from both ends. -/
def trimChars (l : List Char) : List Char :=
  ((l.dropWhile Char.isWhitespace).reverse.dropWhile Char.isWhitespace).reverse

/-- Rust `str::trim` on `String`s. -/
def strTrim (s : String) : String :=
  String.mk (trimChars s.data)

/-- Rust `str::trim_end_matches(c)`. -/
def trimEndChar (c : Char) (s : String) : String :=
  String.mk ((s.data.reverse.dropWhile (· == c)).reverse)

/-- Rust `str::replace(pat, rep)`: replace all non-overlapping
occurrences, scanning left to right.  (All patterns the source passes
are non-empty; an empty pattern leaves the string unchanged here.)
The `fuel` argument only makes the recursion structural; it never runs
out when it starts at the length of the list, since every step consumes
at least one character. -/
def replaceListFuel (pat rep : List Char) : Nat → List Char → List Char
  | _, [] => []
  | 0, l => l
  | fuel + 1, c :: rest =>
    if pat ≠ [] ∧ pat <+: (c :: rest) then
      rep ++ replaceListFuel pat rep fuel ((c :: rest).drop pat.length)
    else
      c :: replaceListFuel pat rep fuel rest

/-- `str::replace` on character lists. -/
def replaceList (pat rep : List Char) (l : List Char) : List Char :=
  replaceListFuel pat rep l.length l

/-- Rust `str::replace` on `String`s. -/
def replaceStr (s pat rep : String) : String :=
  String.mk (replaceList pat.data rep.data s.data)

/-- Rust `str::strip_prefix(pat)`. -/
def stripPrefixOpt (s pat : String) : Option String :=
  if pat.data <+: s.data then some (String.mk (s.data.drop pat.data.length)) else none

/-- Rust `char::split(sep)` semantics on character lists:
`"".split(c) = [""]`, separators at the ends produce empty fields. -/
def splitChar (sep : Char) : List Char → List (List Char)
  | [] => [[]]
  | c :: rest =>
    if c == sep then [] :: splitChar sep rest
    else
      match splitChar sep rest with
      | h :: t => (c :: h) :: t
      | [] => [[c]]

/-- `str::split(sep)` on `String`s. -/
def strSplitChar (sep : Char) (s : String) : List String :=
  (splitChar sep s.data).map String.mk

/-- Rust `str::split_whitespace`: maximal runs of non-whitespace;
leading/trailing/repeated whitespace produces no empty fields.
`cur` accumulates the current word in reverse. -/
def wordsAux : List Char → List Char → List (List Char)
  | [], cur => if cur = [] then [] else [cur.reverse]
  | c :: rest, cur =>
    if c.isWhitespace then
      if cur = [] then wordsAux rest [] else cur.reverse :: wordsAux rest []
    else wordsAux rest (c :: cur)

/-- `str::split_whitespace` on `String`s. -/
def splitWhitespaceStr (s : String) : List String :=
  (wordsAux s.data []).map String.mk

/-- Rust `[&str]::join(sep)` / iterator `format!` chains. -/
def joinSep (sep : String) : List String → String
  | [] => ""
  | [s] => s
  | s :: rest => s ++ sep ++ joinSep sep rest

/-- Rust `str::len()`: the UTF-8 byte length. -/
def strByteLen (s : String) : Nat :=
  (s.data.map Char.utf8Size).sum

/-- First character is an ASCII digit
(`value.chars().next().map_or(false, |c| c.is_ascii_digit())`). -/
def firstCharIsAsciiDigit (s : String) : Bool :=
  match s.data with
  | [] => false
  | c :: _ => ('0' ≤ c && c ≤ '9')

/-! ## Data model (`src/models/product.rs`) -/

/-- One catalog specification attribute with its ordered values.
(The source field is called `attribute`; that word is a Lean keyword, so
the field is named `attr` here.) -/
structure Specification where
  attr : String
  values : List String
deriving Repr, DecidableEq

/-- The product record consumed by the naming engine. -/
structure ProductDetail where
  part_number : String
  detail_description : String
  family_description : String
  product_category : String
  product_status : String
  specifications : List Specification
deriving Repr, DecidableEq

/-! ## `src/naming/abbreviations.rs` -/

/-- The fixed list of finish phrases recognised inside a material value. -/
def finishPrefixes : List String :=
  ["Black-Oxide ", "Black Oxide ", "Zinc Plated ", "Zinc-Plated ",
   "Zinc Yellow-Chromate Plated ", "Zinc Yellow Chromate Plated ",
   "Galvanized ", "Cadmium Plated ", "Cadmium-Plated ",
   "Nickel Plated ", "Nickel-Plated ", "Chrome Plated ", "Chrome-Plated ",
   "Passivated ", "Plain ", "Unfinished "]

/-- `parse_material_and_finish`: split an embedded finish prefix off a
material value; the first matching prefix wins. -/
def parse_material_and_finish (material_value : String) : String × Option String :=
  match finishPrefixes.find? (fun p => strStartsWith material_value p) with
  | some p =>
      ((stripPrefixOpt material_value p).getD material_value, some (strTrim p))
  | none => (material_value, none)

/-- `get_steel_grade_material`: upgrade bare steel to a strength grade
when a `Fastener Strength Grade/Class` specification says so. -/
def get_steel_grade_material (product : ProductDetail) (original_material : String) : String :=
  match product.specifications.find?
      (fun s => strEqIgnoreCase s.attr "Fastener Strength Grade/Class") with
  | some grade_spec =>
    match grade_spec.values.head? with
    | some grade_value =>
      if strContains grade_value "Grade 1" then "Grade 1 Steel"
      else if strContains grade_value "Grade 2" then "Grade 2 Steel"
      else if strContains grade_value "Grade 5" then "Grade 5 Steel"
      else if strContains grade_value "Grade 8" then "Grade 8 Steel"
      else if strContains grade_value "8.8" then "8.8 Steel"
      else if strContains grade_value "10.9" then "10.9 Steel"
      else if strContains grade_value "12.9" then "12.9 Steel"
      else original_material
    | none => original_material
  | none => original_material

/-- `abbreviate_value`: the generic abbreviation fallback used when a
value has no dictionary entry. -/
def abbreviate_value (value : String) : String :=
  if strContains value "x" &&
      (strContains value "/" || strStartsWith value "M" || firstCharIsAsciiDigit value) then
    replaceStr value "\x22" ""
  else
    match stripPrefixOpt value "No. " with
    | some no_match => no_match
    | none =>
      let clean_value := replaceStr (replaceStr value "\x22" "") " " ""
      if strByteLen clean_value ≤ 3 then strToUpper clean_value
      else strToUpper (String.mk (clean_value.data.take 4))

/-! ## `src/naming/converters.rs`

The Rust code computes with `f64`; it is modelled here with exact
rational arithmetic on explicit numerator/denominator pairs (`Frac`,
denominator kept positive).  Every value the converter manipulates —
inch fractions, mixed numbers, decimal numerals — is represented
exactly by both, so the model and the `f64` code agree on them.
`str::parse::<f64>` is modelled for plain decimal numerals (optional
sign, digits, at most one point), the only shapes the converter meets;
`format!("{:.5}", v)` is modelled by rounding `v * 100000` half-to-even
and printing five decimals. -/

/-- An exact rational standing in for an `f64` value. -/
structure Frac where
  num : Int
  den : Int
deriving Repr, DecidableEq

/-- Build a `Frac` with a positive denominator. -/
def mkFrac (n d : Int) : Frac :=
  if d < 0 then ⟨-n, -d⟩ else ⟨n, d⟩

/-- Addition. -/
def Frac.add (a b : Frac) : Frac :=
  ⟨a.num * b.den + b.num * a.den, a.den * b.den⟩

/-- Division. -/
def Frac.divF (a b : Frac) : Frac :=
  mkFrac (a.num * b.den) (a.den * b.num)

/-- The `f64` comparison `v == 0.0`. -/
def Frac.isZero (a : Frac) : Bool :=
  a.num == 0

/-- Multiplication by an integer. -/
def Frac.scale (a : Frac) (k : Int) : Frac :=
  ⟨a.num * k, a.den⟩

/-- The `f64` test `v.fract() == 0.0`. -/
def Frac.isInt (a : Frac) : Bool :=
  a.num % a.den == 0

/-- The `f64` cast `v as i32`: truncation toward zero. -/
def Frac.toIntTrunc (a : Frac) : Int :=
  a.num.tdiv a.den

/-- All characters are ASCII digits. -/
def allAsciiDigits (l : List Char) : Bool :=
  l.all (fun c => '0' ≤ c && c ≤ '9')

/-- Numeric value of an ASCII digit string. -/
def digitsVal (l : List Char) : Nat :=
  l.foldl (fun n c => 10 * n + (c.toNat - '0'.toNat)) 0

/-- Model of Rust `str::parse::<f64>` for plain decimal numerals:
`"2"`, `"-3"`, `"25.4"`, `"5."`, `".5"` parse; `""`, `"."`, `"a"`,
strings with two points or stray characters fail (as they do in Rust). -/
def parseNumber (s : String) : Option Frac :=
  let signBody : Int × List Char :=
    match s.data with
    | '-' :: r => (-1, r)
    | '+' :: r => (1, r)
    | r => (1, r)
  match splitChar '.' signBody.2 with
  | [ip] =>
      if ip ≠ [] ∧ allAsciiDigits ip then
        some ⟨signBody.1 * digitsVal ip, 1⟩
      else none
  | [ip, fp] =>
      if (ip ≠ [] ∨ fp ≠ []) ∧ allAsciiDigits ip ∧ allAsciiDigits fp then
        some ⟨signBody.1 * (digitsVal ip * 10 ^ fp.length + digitsVal fp), 10 ^ fp.length⟩
      else none
  | _ => none

/-- `parse_simple_fraction`: `"3/8"` to its value. -/
def parse_simple_fraction (fraction : String) : Option Frac :=
  match strSplitChar '/' fraction with
  | [a, b] =>
    match parseNumber a, parseNumber b with
    | some numerator, some denominator =>
        if !denominator.isZero then some (numerator.divF denominator) else none
    | _, _ => none
  | _ => none

/-- `parse_fraction_to_decimal`: mixed numbers `"2-3/8"`, simple
fractions `"3/4"`, or plain numbers `"2"`. -/
def parse_fraction_to_decimal (fraction_str : String) : Option Frac :=
  if strContains fraction_str "-" && strContains fraction_str "/" then
    match strSplitChar '-' fraction_str with
    | [wholePart, fracPart] =>
      match parseNumber wholePart, parse_simple_fraction fracPart with
      | some whole, some fraction_decimal => some (whole.add fraction_decimal)
      | _, _ => none
    | _ => none
  else if strContains fraction_str "/" then
    parse_simple_fraction fraction_str
  else
    parseNumber fraction_str

/-- Round to the nearest integer, ties to even
(the rounding `format!("{:.5}", _)` applies). -/
def roundHalfEven (q : Frac) : Int :=
  let f := q.num.fdiv q.den
  let t := q.num - f * q.den
  if 2 * t < q.den then f
  else if q.den < 2 * t then f + 1
  else if f % 2 = 0 then f else f + 1

/-- Left-pad with zeros to five characters. -/
def padZeros5 (s : String) : String :=
  String.mk (List.replicate (5 - s.data.length) '0') ++ s

/-- Model of `format!("{:.5}", q)` for the rationals standing in for
`f64` values. -/
def formatFixed5 (q : Frac) : String :=
  let scaled := roundHalfEven (q.scale 100000)
  let a := scaled.natAbs
  (if scaled < 0 then "-" else "") ++ toString (a / 100000) ++ "." ++
    padZeros5 (toString (a % 100000))

/-- `convert_length_to_decimal`: inch fractions to decimal strings,
`mm` suffixes stripped, everything else unchanged. -/
def convert_length_to_decimal (value : String) : String :=
  if strContains value "\x22" then
    let clean_value := replaceStr (replaceStr value "\x22" "") " " "-"
    match parse_fraction_to_decimal clean_value with
    | some decimal =>
      if decimal.isInt then
        toString decimal.toIntTrunc
      else
        trimEndChar '.' (trimEndChar '0' (formatFixed5 decimal))
    | none => clean_value
  else if strContains value "mm" then
    strTrim (replaceStr value "mm" "")
  else value

/-! ### The metric-pitch regex

`extract_thread_with_pitch` searches the detail description with the
regex `M\d+\s*x?\s*(\d+\.?\d*)\s*mm` and keeps capture group 1 of the
first match.  The search is modelled operationally with leftmost-first
semantics and greedy quantifiers: at each position the alternatives of
every quantifier are tried longest-first, and the first full parse
wins, exactly the order a backtracking engine (and the priority order
of the `regex` crate) uses. -/

/-- Splits `(consumed, rest)` of a `p*` quantifier, greedy order. -/
def greedySplits (p : Char → Bool) (l : List Char) : List (List Char × List Char) :=
  let m := (l.takeWhile p).length
  (List.range (m + 1)).map (fun k => (l.take (m - k), l.drop (m - k)))

/-- Splits of a `p+` quantifier (at least one character), greedy order. -/
def greedySplitsPlus (p : Char → Bool) (l : List Char) : List (List Char × List Char) :=
  (greedySplits p l).filter (fun s => !s.1.isEmpty)

/-- Splits of a `c?` quantifier: the character first if present. -/
def optCharSplits (c : Char) (l : List Char) : List (List Char × List Char) :=
  match l with
  | d :: rest => if d == c then [([c], rest), ([], l)] else [([], l)]
  | [] => [([], l)]

/-- ASCII digit test for the regex `\d`. -/
def regexDigit (c : Char) : Bool := '0' ≤ c && c ≤ '9'

/-- Try to match `M\d+\s*x?\s*(\d+\.?\d*)\s*mm` at the head of `l`,
returning capture group 1 of the highest-priority parse. -/
def metricCaptureAt (l : List Char) : Option (List Char) :=
  match l with
  | 'M' :: r =>
    (greedySplitsPlus regexDigit r).findSome? fun s1 =>
      (greedySplits Char.isWhitespace s1.2).findSome? fun s2 =>
        (optCharSplits 'x' s2.2).findSome? fun s3 =>
          (greedySplits Char.isWhitespace s3.2).findSome? fun s4 =>
            (greedySplitsPlus regexDigit s4.2).findSome? fun s5 =>
              (optCharSplits '.' s5.2).findSome? fun s6 =>
                (greedySplits regexDigit s6.2).findSome? fun s7 =>
                  (greedySplits Char.isWhitespace s7.2).findSome? fun s8 =>
                    if ['m', 'm'] <+: s8.2 then some (s5.1 ++ s6.1 ++ s7.1)
                    else none
  | _ => none

/-- Leftmost match: scan start positions left to right. -/
def metricPitchSearch : List Char → Option (List Char)
  | [] => none
  | c :: rest =>
    match metricCaptureAt (c :: rest) with
    | some cap => some cap
    | none => metricPitchSearch rest

/-- `extract_thread_with_pitch`: hyphen separators become `x`; metric
sizes without a pitch get one from the detail description or a
`Thread Pitch` specification; inch sizes get a threads-per-inch suffix
when such a specification exists. -/
def extract_thread_with_pitch (product : ProductDetail) (thread_size : String) : String :=
  let thread_with_x := replaceStr thread_size "-" "x"
  let metric : Option String :=
    if strStartsWith thread_with_x "M" && !strContains thread_with_x "x" then
      match metricPitchSearch product.detail_description.data with
      | some pitch => some (thread_with_x ++ "x" ++ String.mk pitch)
      | none =>
        match product.specifications.find?
            (fun s => strEqIgnoreCase s.attr "Thread Pitch") with
        | some pitch_spec =>
          match pitch_spec.values.head? with
          | some pitch_value =>
              some (thread_with_x ++ "x" ++ strTrim (replaceStr pitch_value "mm" ""))
          | none => none
        | none => none
    else none
  match metric with
  | some result => result
  | none =>
    match product.specifications.find?
        (fun s => strContains s.attr "Threads per Inch" ||
                  strContains s.attr "threads per inch") with
    | some tpi_spec =>
      match tpi_spec.values.head? with
      | some tpi_value =>
          replaceStr thread_size "No. " "" ++ "x" ++ strTrim tpi_value
      | none => thread_with_x
    | none => thread_with_x

/-! ## `src/naming/detectors.rs` -/

/-- `determine_washer_type`. -/
def determine_washer_type (family_lower : String) : String :=
  if strContains family_lower "cup" then "cup_washer"
  else if strContains family_lower "curved" then "curved_washer"
  else if strContains family_lower "dished" then "dished_washer"
  else if strContains family_lower "domed" then "domed_washer"
  else if strContains family_lower "double clipped" ||
          strContains family_lower "double-clipped" then "double_clipped_washer"
  else if strContains family_lower "clipped" then "clipped_washer"
  else if strContains family_lower "hillside" then "hillside_washer"
  else if strContains family_lower "notched" then "notched_washer"
  else if strContains family_lower "perforated" then "perforated_washer"
  else if strContains family_lower "pronged" then "pronged_washer"
  else if strContains family_lower "rectangular" then "rectangular_washer"
  else if strContains family_lower "sleeve" then "sleeve_washer"
  else if strContains family_lower "slotted" then "slotted_washer"
  else if strContains family_lower "spherical" then "spherical_washer"
  else if strContains family_lower "split" then "split_washer"
  else if strContains family_lower "square" then "square_washer"
  else if strContains family_lower "tab" then "tab_washer"
  else if strContains family_lower "tapered" then "tapered_washer"
  else if strContains family_lower "tooth" then "tooth_washer"
  else if strContains family_lower "wave" then "wave_washer"
  else if strContains family_lower "wedge" then "wedge_washer"
  else "flat_washer"

/-- `determine_nut_type`. -/
def determine_nut_type (family_lower : String) : String :=
  if strContains family_lower "cotter pin" &&
      (strContains family_lower "locknut" || strContains family_lower "lock nut") then
    "cotter_pin_locknut"
  else if strContains family_lower "distorted thread" &&
      (strContains family_lower "locknut" || strContains family_lower "lock nut") then
    "distorted_thread_locknut"
  else if strContains family_lower "flex-top" &&
      (strContains family_lower "locknut" || strContains family_lower "lock nut") then
    "flex_top_locknut"
  else if strContains family_lower "lock washer" &&
      (strContains family_lower "locknut" || strContains family_lower "lock nut") then
    "lock_washer_locknut"
  else if strContains family_lower "nylon insert" ||
          strContains family_lower "nylon-insert" then
    "nylon_insert_locknut"
  else if strContains family_lower "serrations" &&
      (strContains family_lower "locknut" || strContains family_lower "lock nut") then
    "serrations_locknut"
  else if strContains family_lower "spring-stop" &&
      (strContains family_lower "locknut" || strContains family_lower "lock nut") then
    "spring_stop_locknut"
  else if strContains family_lower "steel insert" &&
      (strContains family_lower "locknut" || strContains family_lower "lock nut") then
    "steel_insert_locknut"
  else if strContains family_lower "locknut" || strContains family_lower "lock nut" then
    "generic_locknut"
  else if strContains family_lower "acorn nut" || strContains family_lower "acornnut" then
    "acorn_nut"
  else if strContains family_lower "barrel nut" then "barrel_nut"
  else if strContains family_lower "cage nut" then "cage_nut"
  else if strContains family_lower "castle nut" then "castle_nut"
  else if strContains family_lower "clinch nut" then "clinch_nut"
  else if strContains family_lower "coupling nut" then "coupling_nut"
  else if strContains family_lower "flange nut" || strContains family_lower "flangenut" then
    "flange_nut"
  else if strContains family_lower "hex nut" || strContains family_lower "hexnut" then
    "hex_nut"
  else if strContains family_lower "jam nut" then "jam_nut"
  else if strContains family_lower "knurled thumb nut" then "knurled_thumb_nut"
  else if strContains family_lower "machine screw nut" then "machine_screw_nut"
  else if strContains family_lower "panel nut" then "panel_nut"
  else if strContains family_lower "push on nut" || strContains family_lower "push-on nut" then
    "push_on_nut"
  else if strContains family_lower "rivet nut" then "rivet_nut"
  else if strContains family_lower "round nut" then "round_nut"
  else if strContains family_lower "screw mount" then "screw_mount_nut"
  else if strContains family_lower "snap in" || strContains family_lower "snap-in" then
    "snap_in_nut"
  else if strContains family_lower "socket nut" then "socket_nut"
  else if strContains family_lower "speed" then "speed_nut"
  else if strContains family_lower "square" then "square_nut"
  else if strContains family_lower "tamper resistant" ||
          strContains family_lower "tamper-resistant" then
    "tamper_resistant_nut"
  else if strContains family_lower "threadless" then "threadless_nut"
  else if strContains family_lower "thumb" then "thumb_nut"
  else if strContains family_lower "tube end" then "tube_end_nut"
  else if strContains family_lower "twist close" || strContains family_lower "twist-close" then
    "twist_close_nut"
  else if strContains family_lower "weld" then "weld_nut"
  else if strContains family_lower "with pilot hole" then "with_pilot_hole_nut"
  else if strContains family_lower "wing nut" || strContains family_lower "wingnut" then
    "wing_nut"
  else if strContains family_lower "cap nut" || strContains family_lower "capnut" then
    "cap_nut"
  else "generic_nut"

/-- `determine_standoff_type`. -/
def determine_standoff_type (family_lower : String) : String :=
  if strContains family_lower "male-female" || strContains family_lower "male female" then
    "male_female_hex_standoff"
  else if strContains family_lower "female" && strContains family_lower "threaded" then
    "female_hex_standoff"
  else "generic_standoff"

/-- `determine_spacer_type`. -/
def determine_spacer_type (family_lower : String) : String :=
  if strContains family_lower "aluminum" then "aluminum_unthreaded_spacer"
  else if strContains family_lower "stainless steel" || strContains family_lower "18-8" ||
          strContains family_lower "316" then
    "stainless_steel_unthreaded_spacer"
  else if strContains family_lower "nylon" then "nylon_unthreaded_spacer"
  else "unthreaded_spacer"

/-- `determine_pin_type`. -/
def determine_pin_type (family_lower : String) : String :=
  if strContains family_lower "clevis pin with retaining ring groove" then
    "clevis_pin_with_retaining_ring_groove"
  else if strContains family_lower "clevis pin" then "clevis_pin"
  else "generic_pin"

/-- `determine_shaft_collar_type`. -/
def determine_shaft_collar_type (family_lower : String) : String :=
  if strContains family_lower "face-mount shaft collar" ||
      strContains family_lower "face mount shaft collar" then
    "face_mount_shaft_collar"
  else if strContains family_lower "flange-mount shaft collar" ||
      strContains family_lower "flange mount shaft collar" then
    "flange_mount_shaft_collar"
  else "generic_shaft_collar"

/-- `determine_bearing_type`: also inspects the `Plain Bearing Type` and
`Mounted Bearing Type` specifications and the detail description. -/
def determine_bearing_type (product : ProductDetail) : String :=
  let family_lower := strToLower product.family_description
  let category_lower := strToLower product.product_category
  let plain_type :=
    ((product.specifications.find?
        (fun s => strEqIgnoreCase s.attr "Plain Bearing Type")).bind
      (fun s => s.values.head?)).getD ""
  if strContains family_lower "mounted" || strContains category_lower "mounted" then
    let mount_type :=
      (((product.specifications.find?
          (fun s => strEqIgnoreCase s.attr "Mounted Bearing Type")).bind
        (fun s => s.values.head?)).map strToLower).getD ""
    let description_lower := strToLower product.detail_description
    if strContains mount_type "two-bolt flange" || strContains mount_type "flange" then
      if strContains family_lower "low-profile" || strContains family_lower "low profile" ||
          strContains description_lower "low-profile" ||
          strContains description_lower "low profile" then
        "low_profile_flange_mounted_ball_bearing"
      else "flange_mounted_ball_bearing"
    else if strContains mount_type "pillow" then "pillow_block_mounted_ball_bearing"
    else "generic_mounted_bearing"
  else if strContains family_lower "flanged" || strEqIgnoreCase plain_type "Flanged" then
    if strContains family_lower "sleeve" || strContains family_lower "plain" then
      "flanged_sleeve_bearing"
    else "flanged_bearing"
  else if strContains family_lower "sleeve" || strContains family_lower "plain" then
    "sleeve_bearing"
  else if strContains family_lower "ball" then "ball_bearing"
  else if strContains family_lower "linear" then "linear_bearing"
  else if strContains family_lower "needle" then "needle_bearing"
  else if strContains family_lower "roller" then "roller_bearing"
  else "generic_bearing"

/-- `determine_pulley_type`. -/
def determine_pulley_type (family_lower : String) : String :=
  if strContains family_lower "wire rope" then "wire_rope_pulley"
  else if strContains family_lower "rope" && !strContains family_lower "wire" then
    "rope_pulley"
  else if strContains family_lower "v-belt" || strContains family_lower "belt" then
    "v_belt_pulley"
  else if strContains family_lower "sheave" then "sheave"
  else "pulley"

/-- `determine_category`: the ordered classification waterfall over the
lower-cased family description and product category. -/
def determine_category (product : ProductDetail) : String :=
  let family_lower := strToLower product.family_description
  let category_lower := strToLower product.product_category
  if strContains family_lower "thread-forming" || strContains family_lower "thread forming" then
    if strContains family_lower "button head" && strContains family_lower "screw" then
      "thread_forming_button_head_screw"
    else if strContains family_lower "high socket head" && strContains family_lower "screw" then
      "thread_forming_high_socket_head_screw"
    else if (strContains family_lower "low socket head" ||
             strContains family_lower "low-profile socket head") &&
            strContains family_lower "screw" then
      "thread_forming_low_socket_head_screw"
    else if strContains family_lower "socket head" && strContains family_lower "screw" then
      "thread_forming_socket_head_screw"
    else if strContains family_lower "flat head" && strContains family_lower "screw" then
      "thread_forming_flat_head_screw"
    else if strContains family_lower "pan head" && strContains family_lower "screw" then
      "thread_forming_pan_head_screw"
    else if strContains family_lower "hex head" && strContains family_lower "screw" then
      "thread_forming_hex_head_screw"
    else if strContains family_lower "screw" then "thread_forming_screw"
    else "thread_forming_screw"
  else if strContains family_lower "button head" && strContains family_lower "screw" then
    "button_head_screw"
  else if strContains family_lower "high socket head" && strContains family_lower "screw" then
    "high_socket_head_screw"
  else if (strContains family_lower "low socket head" ||
           strContains family_lower "low-profile socket head") &&
          strContains family_lower "screw" then
    "low_socket_head_screw"
  else if (strContains family_lower "ultra low socket head" ||
           strContains family_lower "ultra low-profile socket head") &&
          strContains family_lower "screw" then
    "ultra_low_socket_head_screw"
  else if strContains family_lower "standard socket head" && strContains family_lower "screw" then
    "standard_socket_head_screw"
  else if strContains family_lower "socket head" && strContains family_lower "screw" then
    "socket_head_screw"
  else if strContains family_lower "narrow flat head" && strContains family_lower "screw" then
    "narrow_flat_head_screw"
  else if strContains family_lower "standard flat head" && strContains family_lower "screw" then
    "standard_flat_head_screw"
  else if strContains family_lower "undercut flat head" && strContains family_lower "screw" then
    "undercut_flat_head_screw"
  else if strContains family_lower "wide flat head" && strContains family_lower "screw" then
    "wide_flat_head_screw"
  else if strContains family_lower "flat head" && strContains family_lower "screw" then
    "flat_head_screw"
  else if strContains family_lower "pan head" && strContains family_lower "screw" then
    "pan_head_screw"
  else if strContains family_lower "hex head" && strContains family_lower "screw" then
    "hex_head_screw"
  else if strContains family_lower "standard oval head" && strContains family_lower "screw" then
    "standard_oval_head_screw"
  else if strContains family_lower "undercut oval head" && strContains family_lower "screw" then
    "undercut_oval_head_screw"
  else if strContains family_lower "oval head" && strContains family_lower "screw" then
    "oval_head_screw"
  else if strContains family_lower "square head" && strContains family_lower "screw" then
    "square_head_screw"
  else if strContains family_lower "binding head" && strContains family_lower "screw" then
    "binding_head_screw"
  else if strContains family_lower "carriage head" && strContains family_lower "screw" then
    "carriage_head_screw"
  else if strContains family_lower "cheese head" && strContains family_lower "screw" then
    "cheese_head_screw"
  else if strContains family_lower "fillister head" && strContains family_lower "screw" then
    "fillister_head_screw"
  else if strContains family_lower "pancake head" && strContains family_lower "screw" then
    "pancake_head_screw"
  else if strContains family_lower "round head" && strContains family_lower "screw" then
    "round_head_screw"
  else if strContains family_lower "truss head" && strContains family_lower "screw" then
    "truss_head_screw"
  else if strContains family_lower "rounded head" && strContains family_lower "screw" then
    "rounded_head_screw"
  else if strContains family_lower "12-point" && strContains family_lower "screw" then
    "12_point_head_screw"
  else if strContains family_lower "t-handle" && strContains family_lower "screw" then
    "t_handle_screw"
  else if strContains family_lower "t-slot" && strContains family_lower "screw" then
    "t_slot_screw"
  else if strContains family_lower "l-handle" && strContains family_lower "screw" then
    "l_handle_screw"
  else if strContains family_lower "domed" && strContains family_lower "screw" then
    "domed_head_screw"
  else if strContains family_lower "headless" && strContains family_lower "screw" then
    "headless_screw"
  else if strContains family_lower "pentagon" && strContains family_lower "screw" then
    "pentagon_head_screw"
  else if strContains family_lower "four arm thumb" && strContains family_lower "screw" then
    "four_arm_thumb_screw"
  else if strContains family_lower "hex thumb" && strContains family_lower "screw" then
    "hex_thumb_screw"
  else if strContains family_lower "multilobe thumb" && strContains family_lower "screw" then
    "multilobe_thumb_screw"
  else if strContains family_lower "rectangle thumb" && strContains family_lower "screw" then
    "rectangle_thumb_screw"
  else if strContains family_lower "round thumb" && strContains family_lower "screw" then
    "round_thumb_screw"
  else if strContains family_lower "spade thumb" && strContains family_lower "screw" then
    "spade_thumb_screw"
  else if strContains family_lower "two arm thumb" && strContains family_lower "screw" then
    "two_arm_thumb_screw"
  else if strContains family_lower "wing thumb" && strContains family_lower "screw" then
    "wing_thumb_screw"
  else if strContains family_lower "thumb" && strContains family_lower "screw" then
    "thumb_screw"
  else if strContains family_lower "captive panel" && strContains family_lower "screw" then
    "captive_panel_screw"
  else if strContains family_lower "hook" && strContains family_lower "screw" then
    "hook_screw"
  else if strContains family_lower "ring" && strContains family_lower "screw" then
    "ring_screw"
  else if strContains family_lower "eye" && strContains family_lower "screw" then
    "eye_screw"
  else if strContains family_lower "knob" && strContains family_lower "screw" then
    "knob_screw"
  else if strContains family_lower "threaded" && strContains family_lower "screw" then
    "threaded_screw"
  else if strContains family_lower "tee" && strContains family_lower "screw" then
    "tee_screw"
  else if strContains family_lower "screw" then "generic_screw"
  else if strContains family_lower "washer" then determine_washer_type family_lower
  else if strContains category_lower "nuts" || strContains category_lower "nut" ||
          strContains family_lower "nut" then
    determine_nut_type family_lower
  else if strContains family_lower "unthreaded spacer" ||
          (strContains category_lower "spacers" && strContains family_lower "spacer") then
    determine_spacer_type family_lower
  else if strContains category_lower "standoffs" || strContains category_lower "standoff" ||
          strContains family_lower "standoff" then
    determine_standoff_type family_lower
  else if strContains category_lower "bearing" || strContains family_lower "bearing" then
    determine_bearing_type product
  else if strContains category_lower "pins" || strContains family_lower "pin" then
    determine_pin_type family_lower
  else if strContains category_lower "shaft collars" ||
          strContains family_lower "shaft collar" then
    determine_shaft_collar_type family_lower
  else if strContains category_lower "pulleys" || strContains family_lower "pulley" ||
          strContains family_lower "sheave" then
    determine_pulley_type family_lower
  else "unknown"

/-! ## `src/naming/generator.rs` -/

/-- A naming template.  (The source field `prefix` is a Lean keyword, so
it is named `pfx` here.) -/
structure NamingTemplate where
  pfx : String
  key_specs : List String
  spec_aliases : Option (List (String × List String))
  spec_abbreviations : List (String × String)
deriving Repr, DecidableEq

/-- `NameGenerator::is_dimension_field`. -/
def is_diameter_field (spec_lower : String) : Bool :=
  spec_lower == "diameter" ||
  strEndsWith spec_lower " diameter" ||
  strStartsWith spec_lower "diameter " ||
  spec_lower == "bore" ||
  strEndsWith spec_lower " bore"

/-- `NameGenerator::is_length_field`. -/
def is_length_field (spec_lower : String) : Bool :=
  spec_lower == "length" ||
  strEndsWith spec_lower " length" ||
  strStartsWith spec_lower "length " ||
  (strStartsWith spec_lower "overall " && strEndsWith spec_lower " length")

/-- `NameGenerator::is_dimension_field`. -/
def is_dimension_field (spec_name : String) : Bool :=
  let spec_lower := strToLower spec_name
  is_diameter_field spec_lower ||
  is_length_field spec_lower ||
  spec_lower == "width" || strEndsWith spec_lower " width" ||
  spec_lower == "height" || strEndsWith spec_lower " height" ||
  spec_lower == "od" || strEndsWith spec_lower " od" ||
  spec_lower == "id" || strEndsWith spec_lower " id" ||
  spec_lower == "for screw size" ||
  strContains spec_lower "mounting hole center"

/-- `NameGenerator::is_washer_template`. -/
def is_washer_template (template_category : String) : Bool :=
  strContains template_category "washer"

/-- `NameGenerator::is_thread_size_field`. -/
def is_thread_size_field (spec_name : String) : Bool :=
  let spec_lower := strToLower spec_name
  spec_lower == "thread size" ||
  spec_lower == "thread (a) size" ||
  spec_lower == "thread (b) size" ||
  strStartsWith spec_lower "thread size" ||
  (strStartsWith spec_lower "thread (" && strContains spec_lower ") size")

/-- `NameGenerator::is_material_field`. -/
def is_material_field (spec_name : String) : Bool :=
  let spec_lower := strToLower spec_name
  spec_lower == "material" ||
  spec_lower == "housing material" ||
  strEndsWith spec_lower " material"

/-- Inner loop of `find_specification_with_aliases`: try each alias in
order against the record's attributes (case-insensitively). -/
def findAliasSpec (product : ProductDetail) : List String → Option (Specification × String)
  | [] => none
  | a :: rest =>
    match product.specifications.find? (fun s => strEqIgnoreCase s.attr a) with
    | some spec => some (spec, a)
    | none => findAliasSpec product rest

/-- `NameGenerator::find_specification_with_aliases`: the main logical
name first (case-insensitively), then each alias in order. -/
def find_specification_with_aliases (product : ProductDetail) (spec_name : String)
    (template : NamingTemplate) : Option (Specification × String) :=
  match product.specifications.find? (fun s => strEqIgnoreCase s.attr spec_name) with
  | some spec => some (spec, spec_name)
  | none =>
    match template.spec_aliases with
    | some aliases =>
      match List.lookup spec_name aliases with
      | some alias_list => findAliasSpec product alias_list
      | none => none
    | none => none

/-- `NameGenerator::process_legacy_specification`.  Returns the produced
token (if any) together with the updated `extracted_finish` state (the
`&mut Option<String>` of the source). -/
def process_legacy_specification (product : ProductDetail) (template : NamingTemplate)
    (template_category spec_name value : String) (extracted_finish : Option String) :
    Option String × Option String :=
  if is_material_field spec_name then
    let mf := parse_material_and_finish value
    let material := mf.1
    let new_extracted := mf.2
    let final_material :=
      if strEndsWith template.pfx "B" &&
          (strStartsWith template.pfx "FSB" || strStartsWith template.pfx "SB" ||
           strStartsWith template.pfx "BB") then
        match product.specifications.find?
            (fun s => strEqIgnoreCase s.attr "Filler Material") with
        | some filler_spec =>
          match filler_spec.values.head? with
          | some filler_value =>
            if filler_value ≠ "" && filler_value ≠ "None" &&
                filler_value ≠ "Not Specified" then
              filler_value ++ "-Filled " ++ material
            else material
          | none => material
        | none => material
      else if strEqIgnoreCase material "Steel" || strEqIgnoreCase material "Alloy Steel" then
        get_steel_grade_material product material
      else material
    let material_abbrev :=
      (List.lookup final_material template.spec_abbreviations).getD
        (abbreviate_value final_material)
    (if material_abbrev == "" then none else some material_abbrev, new_extracted)
  else if strEqIgnoreCase spec_name "Finish" then
    let finish_value := if value ≠ "" then value else extracted_finish.getD ""
    if finish_value ≠ "" then
      let finish_abbrev :=
        (List.lookup finish_value template.spec_abbreviations).getD
          (abbreviate_value finish_value)
      (if finish_abbrev ≠ "" && finish_abbrev ≠ "PASS" then some finish_abbrev else none,
       extracted_finish)
    else (none, extracted_finish)
  else if strEqIgnoreCase spec_name "Length" then
    let length_value := convert_length_to_decimal value
    let abbreviated :=
      (List.lookup length_value template.spec_abbreviations).getD length_value
    (if abbreviated == "" then none else some abbreviated, extracted_finish)
  else if strEqIgnoreCase spec_name "For Screw Size" then
    if is_washer_template template_category then
      let abbreviated :=
        (List.lookup value template.spec_abbreviations).getD (abbreviate_value value)
      (if abbreviated == "" then none else some abbreviated, extracted_finish)
    else
      let dimension_value := convert_length_to_decimal value
      let abbreviated :=
        (List.lookup dimension_value template.spec_abbreviations).getD dimension_value
      (if abbreviated == "" then none else some abbreviated, extracted_finish)
  else if is_dimension_field spec_name then
    let dimension_value := convert_length_to_decimal value
    let abbreviated :=
      (List.lookup dimension_value template.spec_abbreviations).getD dimension_value
    (if abbreviated == "" then none else some abbreviated, extracted_finish)
  else if is_thread_size_field spec_name then
    let thread_value := extract_thread_with_pitch product value
    let abbreviated :=
      (List.lookup thread_value template.spec_abbreviations).getD
        (abbreviate_value thread_value)
    (if abbreviated == "" then none else some abbreviated, extracted_finish)
  else
    let abbreviated :=
      (List.lookup value template.spec_abbreviations).getD (abbreviate_value value)
    (if abbreviated == "" then none else some abbreviated, extracted_finish)

/-- One `key_specs` iteration of `apply_template`, acting on the
accumulated `(name_parts, extracted_finish)` state. -/
def applyTemplateStep (product : ProductDetail) (template : NamingTemplate)
    (template_category : String) (acc : List String × Option String)
    (spec_name : String) : List String × Option String :=
  match find_specification_with_aliases product spec_name template with
  | some found =>
    let value := found.1.values.head?.getD ""
    let processed :=
      process_legacy_specification product template template_category found.2 value acc.2
    (match processed.1 with
     | some token => acc.1 ++ [token]
     | none => acc.1, processed.2)
  | none =>
    if strEqIgnoreCase spec_name "Finish" && acc.2.isSome then
      let processed :=
        process_legacy_specification product template template_category spec_name "" acc.2
      (match processed.1 with
       | some token => acc.1 ++ [token]
       | none => acc.1, processed.2)
    else acc

/-- `NameGenerator::apply_template`: prefix, then one token per resolved
and non-suppressed key spec, joined with `-`. -/
def apply_template (product : ProductDetail) (template : NamingTemplate)
    (template_category : String) : String :=
  let final :=
    template.key_specs.foldl (applyTemplateStep product template template_category)
      ([template.pfx], none)
  joinSep "-" final.1

/-- `NameGenerator::fallback_name`: first four whitespace-separated
words of the family description, joined with `-`, uppercased, commas
stripped, with the part number appended. -/
def fallback_name (product : ProductDetail) : String :=
  let family_words := (splitWhitespaceStr product.family_description).take 4
  if family_words ≠ [] then
    replaceStr (strToUpper (joinSep "-" family_words)) "," "" ++ "-" ++ product.part_number
  else
    "UNKNOWN-" ++ product.part_number

/-! ## `src/naming/templates/*.rs` — the template registry

Each family file builds one shared abbreviation dictionary and inserts
one template per category key.  All keys of each dictionary (and all
category keys of the registry) are pairwise distinct, so the `HashMap`s
are modelled as association lists in insertion order. -/

/-- `create_screw_abbreviations`. -/
def screwAbbrevs : List (String × String) :=
  [("316 Stainless Steel", "SS316"),
   ("18-8 Stainless Steel", "SS188"),
   ("Stainless Steel", "SS"),
   ("Steel", "S"),
   ("Alloy Steel", "S"),
   ("Brass", "Brass"),
   ("Aluminum", "AL"),
   ("Nylon", "Nylon"),
   ("Plastic", "Plastic"),
   ("Grade 1 Steel", "SG1"),
   ("Grade 2 Steel", "SG2"),
   ("Grade 5 Steel", "SG5"),
   ("Grade 8 Steel", "SG8"),
   ("8.8 Steel", "S8.8"),
   ("10.9 Steel", "S10.9"),
   ("12.9 Steel", "S12.9"),
   ("Grade 1 Alloy Steel", "SG1"),
   ("Grade 2 Alloy Steel", "SG2"),
   ("Grade 5 Alloy Steel", "SG5"),
   ("Grade 8 Alloy Steel", "SG8"),
   ("8.8 Alloy Steel", "S8.8"),
   ("10.9 Alloy Steel", "S10.9"),
   ("12.9 Alloy Steel", "S12.9"),
   ("Zinc Plated", "ZP"),
   ("Zinc-Plated", "ZP"),
   ("Zinc Yellow-Chromate Plated", "ZYC"),
   ("Zinc Yellow Chromate Plated", "ZYC"),
   ("Black Oxide", "BO"),
   ("Black-Oxide", "BO"),
   ("Cadmium Plated", "CD"),
   ("Cadmium-Plated", "CD"),
   ("Nickel Plated", "NI"),
   ("Nickel-Plated", "NI"),
   ("Chrome Plated", "CR"),
   ("Chrome-Plated", "CR"),
   ("Galvanized", "GAL"),
   ("External Hex", "EHEX"),
   ("Hex", "HEX"),
   ("Phillips", "PH"),
   ("Torx", "TX"),
   ("Torx Plus", "TXP"),
   ("Slotted", "SL"),
   ("Square", "SQUARE"),
   ("Tamper-Resistant Hex", "TRHEX"),
   ("Tamper-Resistant Torx", "TRTX"),
   ("PozidrivÂ®", "PZ"),
   ("Pozidriv", "PZ"),
   ("6-Lobe", "6L"),
   ("12-Point", "12PT"),
   ("Double Hex", "DHEX"),
   ("Splined", "SPL"),
   ("Triangle", "TRI"),
   ("Spline", "SP"),
   ("Clutch", "CLU"),
   ("One-Way", "1WAY"),
   ("Pin-in-Torx", "PINTX"),
   ("Pin Hex", "PINHEX")]

/-- The key-spec list shared by the headed screw templates. -/
def screwKeySpecs : List String :=
  ["Material", "Thread Size", "Length", "Drive Style", "Finish"]

/-- The key-spec list of the generic/specialty screw templates. -/
def specialtyScrewKeySpecs : List String :=
  ["Material", "Thread Size", "Length", "Finish"]

/-- A screw template with the given prefix and key specs. -/
def mkScrewTemplate (p : String) (ks : List String) : NamingTemplate :=
  { pfx := p, key_specs := ks, spec_aliases := none, spec_abbreviations := screwAbbrevs }

/-- `initialize_screw_templates` (button, socket-head, flat-head, other
and specialty screws, in insertion order). -/
def screwTemplates : List (String × NamingTemplate) :=
  [("button_head_screw", mkScrewTemplate "BHS" screwKeySpecs),
   ("socket_head_screw", mkScrewTemplate "SHS" screwKeySpecs),
   ("high_socket_head_screw", mkScrewTemplate "HSHS" screwKeySpecs),
   ("low_socket_head_screw", mkScrewTemplate "LSHS" screwKeySpecs),
   ("ultra_low_socket_head_screw", mkScrewTemplate "ULSHS" screwKeySpecs),
   ("standard_socket_head_screw", mkScrewTemplate "SSHS" screwKeySpecs),
   ("flat_head_screw", mkScrewTemplate "FHS" screwKeySpecs),
   ("narrow_flat_head_screw", mkScrewTemplate "NFHS" screwKeySpecs),
   ("standard_flat_head_screw", mkScrewTemplate "SFHS" screwKeySpecs),
   ("undercut_flat_head_screw", mkScrewTemplate "UFHS" screwKeySpecs),
   ("wide_flat_head_screw", mkScrewTemplate "WFHS" screwKeySpecs),
   ("pan_head_screw", mkScrewTemplate "PHS" screwKeySpecs),
   ("hex_head_screw", mkScrewTemplate "HHS" screwKeySpecs),
   ("rounded_head_screw", mkScrewTemplate "RHS" screwKeySpecs),
   ("generic_screw", mkScrewTemplate "SCREW" specialtyScrewKeySpecs),
   ("thumb_screw", mkScrewTemplate "THUMB" specialtyScrewKeySpecs),
   ("eye_screw", mkScrewTemplate "EYE" specialtyScrewKeySpecs),
   ("hook_screw", mkScrewTemplate "HOOK" specialtyScrewKeySpecs)]

/-- `create_washer_abbreviations`. -/
def washerAbbrevs : List (String × String) :=
  [("316 Stainless Steel", "SS316"),
   ("18-8 Stainless Steel", "SS188"),
   ("Stainless Steel", "SS"),
   ("Steel", "Steel"),
   ("Alloy Steel", "Steel"),
   ("Brass", "Brass"),
   ("Aluminum", "AL"),
   ("Nylon", "Nylon"),
   ("Plastic", "Plastic"),
   ("Rubber", "Rubber"),
   ("Spring Steel", "Steel"),
   ("Zinc Plated", "ZP"),
   ("Zinc-Plated", "ZP"),
   ("Zinc Yellow-Chromate Plated", "ZYC"),
   ("Zinc Yellow Chromate Plated", "ZYC"),
   ("Black Oxide", "BO"),
   ("Black-Oxide", "BO"),
   ("Cadmium Plated", "CD"),
   ("Cadmium-Plated", "CD"),
   ("Nickel Plated", "NI"),
   ("Nickel-Plated", "NI"),
   ("Chrome Plated", "CR"),
   ("Chrome-Plated", "CR"),
   ("Galvanized", "GAL")]

/-- A washer template with the given prefix. -/
def mkWasherTemplate (p : String) : NamingTemplate :=
  { pfx := p, key_specs := ["Material", "For Screw Size", "Finish"],
    spec_aliases := none, spec_abbreviations := washerAbbrevs }

/-- `initialize_washer_templates` (the `washer_types` array, in order). -/
def washerTemplates : List (String × NamingTemplate) :=
  [("cup_washer", mkWasherTemplate "CW"),
   ("curved_washer", mkWasherTemplate "CRVW"),
   ("dished_washer", mkWasherTemplate "DW"),
   ("domed_washer", mkWasherTemplate "DMW"),
   ("double_clipped_washer", mkWasherTemplate "DCW"),
   ("clipped_washer", mkWasherTemplate "CLW"),
   ("flat_washer", mkWasherTemplate "FW"),
   ("hillside_washer", mkWasherTemplate "HW"),
   ("notched_washer", mkWasherTemplate "NW"),
   ("perforated_washer", mkWasherTemplate "PW"),
   ("pronged_washer", mkWasherTemplate "PRW"),
   ("rectangular_washer", mkWasherTemplate "RW"),
   ("sleeve_washer", mkWasherTemplate "SW"),
   ("slotted_washer", mkWasherTemplate "SLW"),
   ("spherical_washer", mkWasherTemplate "SPW"),
   ("split_washer", mkWasherTemplate "SPLW"),
   ("square_washer", mkWasherTemplate "SQW"),
   ("tab_washer", mkWasherTemplate "TW"),
   ("tapered_washer", mkWasherTemplate "TPW"),
   ("tooth_washer", mkWasherTemplate "TOW"),
   ("wave_washer", mkWasherTemplate "WW"),
   ("wedge_washer", mkWasherTemplate "WDW")]

/-- `create_nut_abbreviations`. -/
def nutAbbrevs : List (String × String) :=
  [("316 Stainless Steel", "SS316"),
   ("18-8 Stainless Steel", "SS188"),
   ("Stainless Steel", "SS"),
   ("Steel", "S"),
   ("Alloy Steel", "S"),
   ("Brass", "Brass"),
   ("Aluminum", "AL"),
   ("Nylon", "Nylon"),
   ("Plastic", "Plastic"),
   ("Grade 1 Steel", "SG1"),
   ("Grade 2 Steel", "SG2"),
   ("Grade 5 Steel", "SG5"),
   ("Grade 8 Steel", "SG8"),
   ("8.8 Steel", "S8.8"),
   ("10.9 Steel", "S10.9"),
   ("12.9 Steel", "S12.9"),
   ("Grade 1 Alloy Steel", "SG1"),
   ("Grade 2 Alloy Steel", "SG2"),
   ("Grade 5 Alloy Steel", "SG5"),
   ("Grade 8 Alloy Steel", "SG8"),
   ("8.8 Alloy Steel", "S8.8"),
   ("10.9 Alloy Steel", "S10.9"),
   ("12.9 Alloy Steel", "S12.9"),
   ("Zinc Plated", "ZP"),
   ("Zinc-Plated", "ZP"),
   ("Zinc Yellow-Chromate Plated", "ZYC"),
   ("Zinc Yellow Chromate Plated", "ZYC"),
   ("Black Oxide", "BO"),
   ("Black-Oxide", "BO"),
   ("Cadmium Plated", "CD"),
   ("Cadmium-Plated", "CD"),
   ("Nickel Plated", "NI"),
   ("Nickel-Plated", "NI"),
   ("Chrome Plated", "CR"),
   ("Chrome-Plated", "CR"),
   ("Galvanized", "GAL")]

/-- A nut template with the given prefix. -/
def mkNutTemplate (p : String) : NamingTemplate :=
  { pfx := p, key_specs := ["Material", "Thread Size", "Finish"],
    spec_aliases := none, spec_abbreviations := nutAbbrevs }

/-- `initialize_nut_templates` (common, locking, specialty, in order). -/
def nutTemplates : List (String × NamingTemplate) :=
  [("hex_nut", mkNutTemplate "HN"),
   ("wing_nut", mkNutTemplate "WN"),
   ("cap_nut", mkNutTemplate "CN"),
   ("flange_nut", mkNutTemplate "FN"),
   ("generic_nut", mkNutTemplate "N"),
   ("nylon_insert_locknut", mkNutTemplate "LN"),
   ("generic_locknut", mkNutTemplate "LN"),
   ("cotter_pin_locknut", mkNutTemplate "LN"),
   ("distorted_thread_locknut", mkNutTemplate "LN"),
   ("flex_top_locknut", mkNutTemplate "LN"),
   ("lock_washer_locknut", mkNutTemplate "LN"),
   ("serrations_locknut", mkNutTemplate "LN"),
   ("spring_stop_locknut", mkNutTemplate "LN"),
   ("steel_insert_locknut", mkNutTemplate "LN"),
   ("acorn_nut", mkNutTemplate "AN"),
   ("barrel_nut", mkNutTemplate "BN"),
   ("cage_nut", mkNutTemplate "CAGEN"),
   ("castle_nut", mkNutTemplate "CASN"),
   ("clinch_nut", mkNutTemplate "CLIN"),
   ("coupling_nut", mkNutTemplate "COUPN"),
   ("jam_nut", mkNutTemplate "JN"),
   ("knurled_thumb_nut", mkNutTemplate "KTN"),
   ("machine_screw_nut", mkNutTemplate "MSN"),
   ("panel_nut", mkNutTemplate "PN"),
   ("push_on_nut", mkNutTemplate "PON"),
   ("rivet_nut", mkNutTemplate "RN"),
   ("round_nut", mkNutTemplate "ROUNDN"),
   ("screw_mount_nut", mkNutTemplate "SMN"),
   ("snap_in_nut", mkNutTemplate "SIN"),
   ("socket_nut", mkNutTemplate "SN"),
   ("speed_nut", mkNutTemplate "SPEEDN"),
   ("square_nut", mkNutTemplate "SQN"),
   ("tamper_resistant_nut", mkNutTemplate "TRN"),
   ("threadless_nut", mkNutTemplate "TLN"),
   ("thumb_nut", mkNutTemplate "TN"),
   ("tube_end_nut", mkNutTemplate "TEN"),
   ("twist_close_nut", mkNutTemplate "TCN"),
   ("weld_nut", mkNutTemplate "WLN"),
   ("with_pilot_hole_nut", mkNutTemplate "PHN")]

/-- The standoff abbreviation dictionary. -/
def standoffAbbrevs : List (String × String) :=
  [("316 Stainless Steel", "SS316"),
   ("18-8 Stainless Steel", "SS188"),
   ("Stainless Steel", "SS"),
   ("Steel", "S"),
   ("Alloy Steel", "S"),
   ("Brass", "Brass"),
   ("Aluminum", "AL"),
   ("Nylon", "Nylon"),
   ("Grade 1 Steel", "SG1"),
   ("Grade 2 Steel", "SG2"),
   ("Grade 5 Steel", "SG5"),
   ("Grade 8 Steel", "SG8"),
   ("8.8 Steel", "S8.8"),
   ("10.9 Steel", "S10.9"),
   ("12.9 Steel", "S12.9"),
   ("Grade 1 Alloy Steel", "SG1"),
   ("Grade 2 Alloy Steel", "SG2"),
   ("Grade 5 Alloy Steel", "SG5"),
   ("Grade 8 Alloy Steel", "SG8"),
   ("8.8 Alloy Steel", "S8.8"),
   ("10.9 Alloy Steel", "S10.9"),
   ("12.9 Alloy Steel", "S12.9"),
   ("Zinc Plated", "ZP"),
   ("Zinc-Plated", "ZP"),
   ("Zinc Yellow-Chromate Plated", "ZYC"),
   ("Zinc Yellow Chromate Plated", "ZYC"),
   ("Black Oxide", "BO"),
   ("Black-Oxide", "BO"),
   ("Cadmium Plated", "CD"),
   ("Cadmium-Plated", "CD"),
   ("Nickel Plated", "NI"),
   ("Nickel-Plated", "NI"),
   ("Chrome Plated", "CR"),
   ("Chrome-Plated", "CR"),
   ("Galvanized", "GAL")]

/-- A standoff template with the given prefix.  (The source struct
literals omit `spec_aliases`; no aliases are defined for standoffs.) -/
def mkStandoffTemplate (p : String) : NamingTemplate :=
  { pfx := p, key_specs := ["Material", "Thread Size", "Length", "Finish"],
    spec_aliases := none, spec_abbreviations := standoffAbbrevs }

/-- `initialize_standoff_templates`. -/
def standoffTemplates : List (String × NamingTemplate) :=
  [("male_female_hex_standoff", mkStandoffTemplate "MFSO"),
   ("female_hex_standoff", mkStandoffTemplate "FSO"),
   ("generic_standoff", mkStandoffTemplate "SO")]

/-- The spacer abbreviation dictionary. -/
def spacerAbbrevs : List (String × String) :=
  [("Acetal Plastic", "ACET"),
   ("Acetal", "ACET"),
   ("Polyethylene", "PE"),
   ("Polypropylene", "PP"),
   ("PEEK", "PEEK"),
   ("PTFE", "PTFE"),
   ("Polycarbonate", "PC"),
   ("316 Stainless Steel", "SS316"),
   ("18-8 Stainless Steel", "SS188"),
   ("Stainless Steel", "SS"),
   ("Steel", "S"),
   ("Alloy Steel", "S"),
   ("Brass", "Brass"),
   ("Aluminum", "AL"),
   ("Nylon", "Nylon"),
   ("Titanium", "TI"),
   ("Zinc Plated", "ZP"),
   ("Zinc-Plated", "ZP"),
   ("Zinc Yellow-Chromate Plated", "ZYC"),
   ("Zinc Yellow Chromate Plated", "ZYC"),
   ("Black Oxide", "BO"),
   ("Black-Oxide", "BO"),
   ("Cadmium Plated", "CD"),
   ("Cadmium-Plated", "CD"),
   ("Nickel Plated", "NI"),
   ("Nickel-Plated", "NI"),
   ("Chrome Plated", "CR"),
   ("Chrome-Plated", "CR"),
   ("Galvanized", "GAL"),
   ("Black Anodized", "BA"),
   ("Black-Anodized", "BA")]

/-- The spacer alias table (`For Screw Size` listed twice, as built). -/
def spacerAliases : List (String × List String) :=
  [("For Screw Size", ["For Screw Size", "For Screw Size"])]

/-- A spacer template with the given prefix and key specs. -/
def mkSpacerTemplate (p : String) (ks : List String) : NamingTemplate :=
  { pfx := p, key_specs := ks, spec_aliases := some spacerAliases,
    spec_abbreviations := spacerAbbrevs }

/-- `initialize_spacer_templates`. -/
def spacerTemplates : List (String × NamingTemplate) :=
  [("unthreaded_spacer",
    mkSpacerTemplate "SP" ["Material", "For Screw Size", "OD", "Length", "Finish"]),
   ("aluminum_unthreaded_spacer",
    mkSpacerTemplate "ASP" ["Material", "For Screw Size", "OD", "Length", "Finish"]),
   ("stainless_steel_unthreaded_spacer",
    mkSpacerTemplate "SSSP" ["Material", "For Screw Size", "OD", "Length", "Finish"]),
   ("nylon_unthreaded_spacer",
    mkSpacerTemplate "NSP" ["Material", "For Screw Size", "OD", "Length"])]

/-- The pin abbreviation dictionary. -/
def pinAbbrevs : List (String × String) :=
  [("316 Stainless Steel", "SS316"),
   ("18-8 Stainless Steel", "SS188"),
   ("Stainless Steel", "SS"),
   ("Steel", "S"),
   ("Alloy Steel", "S"),
   ("Brass", "Brass"),
   ("Aluminum", "AL"),
   ("Titanium", "TI"),
   ("Grade 1 Steel", "SG1"),
   ("Grade 2 Steel", "SG2"),
   ("Grade 5 Steel", "SG5"),
   ("Grade 8 Steel", "SG8"),
   ("8.8 Steel", "S8.8"),
   ("10.9 Steel", "S10.9"),
   ("12.9 Steel", "S12.9"),
   ("Zinc Plated", "ZP"),
   ("Zinc-Plated", "ZP"),
   ("Zinc Yellow-Chromate Plated", "ZYC"),
   ("Zinc Yellow Chromate Plated", "ZYC"),
   ("Black Oxide", "BO"),
   ("Black-Oxide", "BO"),
   ("Cadmium Plated", "CD"),
   ("Cadmium-Plated", "CD"),
   ("Nickel Plated", "NI"),
   ("Nickel-Plated", "NI"),
   ("Chrome Plated", "CR"),
   ("Chrome-Plated", "CR"),
   ("Galvanized", "GAL"),
   ("Retaining Ring Groove", "RRG"),
   ("Plain", "")]

/-- The shaft-collar dictionary: the pin dictionary plus two extra
materials (`collar_abbrevs = pin_abbrevs.clone()` + two inserts). -/
def collarAbbrevs : List (String × String) :=
  pinAbbrevs ++ [("303 Stainless Steel", "SS303"), ("1215 Carbon Steel", "1215S")]

/-- `initialize_pin_templates` (clevis pins, then shaft collars).
(The source struct literals omit `spec_aliases`; none are defined.) -/
def pinTemplates : List (String × NamingTemplate) :=
  [("clevis_pin",
    { pfx := "CP", key_specs := ["Material", "Diameter", "Usable Length", "Finish"],
      spec_aliases := none, spec_abbreviations := pinAbbrevs }),
   ("clevis_pin_with_retaining_ring_groove",
    { pfx := "CPRRG", key_specs := ["Material", "Diameter", "Usable Length", "Finish"],
      spec_aliases := none, spec_abbreviations := pinAbbrevs }),
   ("face_mount_shaft_collar",
    { pfx := "FMSC",
      key_specs := ["Material", "For Shaft Diameter", "OD", "Width", "Finish"],
      spec_aliases := none, spec_abbreviations := collarAbbrevs }),
   ("flange_mount_shaft_collar",
    { pfx := "FLSC",
      key_specs := ["Material", "For Shaft Diameter", "OD", "Width", "Finish"],
      spec_aliases := none, spec_abbreviations := collarAbbrevs })]

/-- The bearing abbreviation dictionary. -/
def bearingAbbrevs : List (String × String) :=
  [("MDS-Filled Nylon Plastic", "MDSNYL"),
   ("MDS-Filled Nylon", "MDSNYL"),
   ("Nylon Plastic", "NYL"),
   ("Bronze SAE 841", "BR841"),
   ("Bronze SAE 863", "BR863"),
   ("Cast Bronze", "CB"),
   ("Oil-Filled Bronze", "OFB"),
   ("PTFE", "PTFE"),
   ("Rulon", "RUL"),
   ("Graphite", "GRAPH"),
   ("Steel-Backed PTFE", "SBPTFE"),
   ("Bronze", "BR"),
   ("Steel", "S"),
   ("Stainless Steel", "SS"),
   ("303 Stainless Steel", "SS303"),
   ("Aluminum", "AL"),
   ("Plastic", "PL")]

/-- A bearing template with the given prefix and key specs. -/
def mkBearingTemplate (p : String) (ks : List String) : NamingTemplate :=
  { pfx := p, key_specs := ks, spec_aliases := none,
    spec_abbreviations := bearingAbbrevs }

/-- `initialize_bearing_templates`. -/
def bearingTemplates : List (String × NamingTemplate) :=
  [("flanged_sleeve_bearing",
    mkBearingTemplate "FSB" ["Material", "For Shaft Diameter", "OD", "Length"]),
   ("sleeve_bearing",
    mkBearingTemplate "SB" ["Material", "For Shaft Diameter", "OD", "Length"]),
   ("flanged_bearing",
    mkBearingTemplate "FB" ["Material", "For Shaft Diameter", "OD", "Length"]),
   ("ball_bearing", mkBearingTemplate "BB" ["Material", "Bore", "OD"]),
   ("linear_bearing",
    mkBearingTemplate "LB" ["Material", "For Shaft Diameter", "Length"]),
   ("needle_bearing", mkBearingTemplate "NB" ["Material", "Bore", "OD", "Length"]),
   ("roller_bearing", mkBearingTemplate "RB" ["Material", "Bore", "OD", "Length"]),
   ("flange_mounted_ball_bearing",
    mkBearingTemplate "MFBB"
      ["Housing Material", "For Shaft Diameter",
       "Mounting Hole Center -to-Center", "Overall Height"]),
   ("low_profile_flange_mounted_ball_bearing",
    mkBearingTemplate "LPMFBB"
      ["Housing Material", "For Shaft Diameter",
       "Mounting Hole Center -to-Center", "Overall Height"]),
   ("pillow_block_mounted_ball_bearing",
    mkBearingTemplate "PBMBB"
      ["Housing Material", "For Shaft Diameter",
       "Mounting Hole Center -to-Center", "Overall Height"]),
   ("generic_mounted_bearing",
    mkBearingTemplate "MBB" ["Housing Material", "For Shaft Diameter", "Overall Height"]),
   ("generic_bearing", mkBearingTemplate "BRG" ["Material", "Type"])]

/-- `NameGenerator::initialize_templates`: the registry as populated at
startup.  Exactly these seven family initializers are invoked
(`generator.rs` lines 106–115); the pulley, latch and cable-holder
template files exist in the repository but no code calls their
initializers, so their keys are absent from the registry. -/
def category_templates : List (String × NamingTemplate) :=
  screwTemplates ++ washerTemplates ++ nutTemplates ++ standoffTemplates ++
    spacerTemplates ++ pinTemplates ++ bearingTemplates

/-- `NameGenerator::generate_name`: detect, look up, apply, or fall
back. -/
def generate_name (product : ProductDetail) : String :=
  let template_key := determine_category product
  match List.lookup template_key category_templates with
  | some template => apply_template product template template_key
  | none => fallback_name product

/-! ## `src/naming/analyzer.rs` (the parts the claims are about) -/

/-- Inner alias loop of `PartAnalyzer::find_spec_in_product`: the first
attribute match (case-sensitive) ends the whole search, returning that
specification's first value even when there is none. -/
def findAliasValueInProduct (product : ProductDetail) : List String → Option String
  | [] => none
  | a :: rest =>
    match product.specifications.find? (fun s => s.attr == a) with
    | some spec => spec.values.head?
    | none => findAliasValueInProduct product rest

/-- `PartAnalyzer::find_spec_in_product`: direct case-sensitive match
first, then the aliases in order (also case-sensitive); a match returns
the specification's first value (`None` when the matching specification
has no values, ending the search). -/
def find_spec_in_product (spec_name : String) (product : ProductDetail)
    (template : NamingTemplate) : Option String :=
  match product.specifications.find? (fun s => s.attr == spec_name) with
  | some spec => spec.values.head?
  | none =>
    match template.spec_aliases with
    | some aliases =>
      match List.lookup spec_name aliases with
      | some alias_list => findAliasValueInProduct product alias_list
      | none => none
    | none => none

/-- The `missing_specs` computation of `PartAnalyzer::analyze_part`
(lines 103–110): the expected key specs for which
`find_spec_in_product` yields nothing, in template order. -/
def missing_specs (product : ProductDetail) (template : NamingTemplate) : List String :=
  template.key_specs.filter
    (fun expected_spec => (find_spec_in_product expected_spec product template).isNone)

/-! ## Claim records and theorems -/

/-- The record of the end-to-end scenario (claim C1). -/
def buttonHeadRecord : ProductDetail :=
  { part_number := "91251A540", detail_description := "",
    family_description := "Button Head Socket Cap Screw",
    product_category := "", product_status := "",
    specifications :=
      [⟨"Material", ["18-8 Stainless Steel"]⟩,
       ⟨"Thread Size", ["1/4-20"]⟩,
       ⟨"Length", ["3/4\x22"]⟩,
       ⟨"Drive Style", ["Hex"]⟩] }

/-- C1: the end-to-end scenario.  The record with part number
`91251A540`, family description `Button Head Socket Cap Screw` and
specifications Material `18-8 Stainless Steel`, Thread Size `1/4-20`,
Length `3/4"`, Drive Style `Hex` is classified `button_head_screw` and
named `BHS-SS188-1/4x20-0.75-HEX`; the `Finish` field contributes no
token (nothing resolves it and no finish was extracted). -/
theorem c1_end_to_end_scenario :
    determine_category buttonHeadRecord = "button_head_screw" ∧
    generate_name buttonHeadRecord = "BHS-SS188-1/4x20-0.75-HEX" := by
  constructor <;> rfl

/-- C6: precedence of the thread-forming branch.  Whatever the other
fields hold, a record whose family description is
`Thread-Forming Socket Head Screw` is classified
`thread_forming_socket_head_screw` — in particular not
`socket_head_screw` and not `generic_screw`. -/
theorem c6_thread_forming_precedence
    (pn dd pc ps : String) (specs : List Specification) :
    determine_category
        { part_number := pn, detail_description := dd,
          family_description := "Thread-Forming Socket Head Screw",
          product_category := pc, product_status := ps,
          specifications := specs } = "thread_forming_socket_head_screw" ∧
    determine_category
        { part_number := pn, detail_description := dd,
          family_description := "Thread-Forming Socket Head Screw",
          product_category := pc, product_status := ps,
          specifications := specs } ≠ "socket_head_screw" ∧
    determine_category
        { part_number := pn, detail_description := dd,
          family_description := "Thread-Forming Socket Head Screw",
          product_category := pc, product_status := ps,
          specifications := specs } ≠ "generic_screw" := by
  refine ⟨rfl, ?_, ?_⟩ <;> intro h <;> rw [show determine_category
      { part_number := pn, detail_description := dd,
        family_description := "Thread-Forming Socket Head Screw",
        product_category := pc, product_status := ps,
        specifications := specs } = "thread_forming_socket_head_screw" from rfl] at h <;>
    exact absurd h (by decide)

/-- C7: the fraction-to-decimal conversion table.  `3/4"` gives `0.75`,
`1-3/8"` gives `1.375`, `2"` gives `2` (integral results carry no
decimal point), `10mm` gives `10` (the `mm` suffix is stripped), and
`13/32"` gives `0.40625` (five decimal places, trailing zeros and a
trailing point trimmed). -/
theorem c7_fraction_conversion_table :
    convert_length_to_decimal "3/4\x22" = "0.75" ∧
    convert_length_to_decimal "1-3/8\x22" = "1.375" ∧
    convert_length_to_decimal "2\x22" = "2" ∧
    convert_length_to_decimal "10mm" = "10" ∧
    convert_length_to_decimal "13/32\x22" = "0.40625" ∧
    convert_length_to_decimal "1/2\x22" = "0.5" := by
  refine ⟨rfl, rfl, rfl, rfl, rfl, rfl⟩

/-- A pulley record (claim C2). -/
def pulleyRecord : ProductDetail :=
  { part_number := "3099N11", detail_description := "",
    family_description := "Pulley", product_category := "",
    product_status := "", specifications := [] }

/-- C2: the spec says the registry is populated from builder functions
for ten product families, pulleys, latches and cable holders included,
so that e.g. the pulley key `pulley` resolves to a template.  The code
disagrees: `initialize_templates` invokes only the screw, washer, nut,
standoff, spacer, pin and bearing builders, so the key `pulley`
produced by the detector has no registry entry and such records are
routed to the fallback namer. -/
theorem c2_pulley_key_unregistered :
    determine_category pulleyRecord = "pulley" ∧
    List.lookup "pulley" category_templates = none ∧
    List.lookup "wire_rope_pulley" category_templates = none ∧
    List.lookup "draw_latch" category_templates = none ∧
    List.lookup "cable_holder" category_templates = none ∧
    generate_name pulleyRecord = "PULLEY-3099N11" := by
  refine ⟨rfl, rfl, rfl, rfl, rfl, rfl⟩

/-- C3 counterexample: the claim says any value that starts with a
digit and contains `/` is returned intact by the generic abbreviation
fallback.  `"13/16"` is such a value (and has no dictionary entry in
this code path), yet `abbreviate_value` truncates it to `"13/1"`: the
code guards the thread-designation branch with *contains `x` AND
(contains `/` or starts with `M` or starts with a digit)*, not with the
claimed disjunction. -/
theorem c3_counterexample_13_16 :
    abbreviate_value "13/16" = "13/1" ∧ "13/1" ≠ "13/16" := by
  exact ⟨rfl, by decide⟩

/-- C3 amended: the generic abbreviation fallback returns the value
largely intact (only quotes stripped) exactly when it contains `x` and
additionally contains `/`, starts with `M`, or starts with an ASCII
digit; a value such as `13/16`, which contains no `x`, does not take
this branch. -/
theorem c3_amended_thread_branch (value : String)
    (h : strContains value "x" = true)
    (h2 : strContains value "/" = true ∨ strStartsWith value "M" = true ∨
          firstCharIsAsciiDigit value = true) :
    abbreviate_value value = replaceStr value "\x22" "" := by
  unfold abbreviate_value
  have hcond : (strContains value "x" &&
      (strContains value "/" || strStartsWith value "M" ||
        firstCharIsAsciiDigit value)) = true := by
    rcases h2 with h2 | h2 | h2 <;> simp [h, h2]
  rw [if_pos hcond]

/-- C3 amended, witness: the thread designation `1/4x20` satisfies the
branch condition and is preserved. -/
theorem c3_amended_thread_branch_witness :
    abbreviate_value "1/4x20" = replaceStr "1/4x20" "\x22" "" ∧
    replaceStr "1/4x20" "\x22" "" = "1/4x20" :=
  ⟨c3_amended_thread_branch "1/4x20" (by decide) (Or.inl (by decide)), rfl⟩

/-- The record of claim C4's counterexample: its only specification is
labelled `material`, in lower case. -/
def lowercaseMaterialRecord : ProductDetail :=
  { part_number := "", detail_description := "",
    family_description := "Button Head Socket Cap Screw",
    product_category := "", product_status := "",
    specifications := [⟨"material", ["Steel"]⟩] }

/-- C4 counterexample: the claim says the analyzer lists a field as
missing iff the assembler's case-insensitive resolution finds nothing
for it, "including attributes that differ from the logical name only in
letter case".  For a record whose attribute is `material` (lower case)
and the button-head template, the assembler resolves `Material`
case-insensitively, yet the analyzer — whose `find_spec_in_product`
compares attributes with case-sensitive `==` — still lists `Material`
as missing. -/
theorem c4_counterexample_case_sensitivity :
    "Material" ∈ missing_specs lowercaseMaterialRecord (mkScrewTemplate "BHS" screwKeySpecs) ∧
    (find_specification_with_aliases lowercaseMaterialRecord "Material"
        (mkScrewTemplate "BHS" screwKeySpecs)).isSome = true := by
  exact ⟨by decide, by decide⟩

/-- C4 amended: the analyzer lists an expected logical field in
`missing_specs` iff its own resolution — an exact case-*sensitive*
match of the logical name against the record's attributes, then each
alias in order (also case-sensitive), where a matching specification
with an empty value list also counts as unresolved — yields no value.
This resolution is not equivalent to the assembler's case-insensitive
one (see the counterexample). -/
theorem c4_amended_missing_iff_unresolved
    (product : ProductDetail) (template : NamingTemplate) (spec_name : String) :
    spec_name ∈ missing_specs product template ↔
      spec_name ∈ template.key_specs ∧
        find_spec_in_product spec_name product template = none := by
  unfold missing_specs
  rw [List.mem_filter]
  simp [Option.isNone_iff_eq_none]

/-- A name equal to `Finish` up to ASCII case is never a material
field. -/
theorem finish_name_not_material (n : String)
    (h : strEqIgnoreCase n "Finish" = true) : is_material_field n = false := by
  unfold strEqIgnoreCase at h
  have hd : n.data.map Char.toLower = "Finish".data.map Char.toLower := eq_of_beq h
  unfold is_material_field strToLower
  rw [hd]
  decide

/-- The record of claim C5's counterexample: the finish is embedded in
the material and abbreviates to `PASS`, and the drive style `Passat`
also abbreviates to `PASS`. -/
def passDriveRecord : ProductDetail :=
  { part_number := "91251A540", detail_description := "",
    family_description := "Button Head Socket Cap Screw",
    product_category := "", product_status := "",
    specifications :=
      [⟨"Material", ["Passivated 18-8 Stainless Steel"]⟩,
       ⟨"Thread Size", ["1/4-20"]⟩,
       ⟨"Length", ["3/4\x22"]⟩,
       ⟨"Drive Style", ["Passat"]⟩] }

/-- C5 counterexample: the claim says a record whose resolved finish
abbreviates to `PASS` never has `PASS` as a `-`-delimited token of its
generated name.  For this record the resolved finish is the
`Passivated` extracted from the material, which abbreviates to `PASS`
and is indeed suppressed — but the unrelated `Drive Style` value
`Passat` also abbreviates to `PASS`, so the generated name does contain
a `PASS` token. -/
theorem c5_counterexample_pass_token :
    parse_material_and_finish "Passivated 18-8 Stainless Steel" =
      ("18-8 Stainless Steel", some "Passivated") ∧
    abbreviate_value "Passivated" = "PASS" ∧
    generate_name passDriveRecord = "BHS-SS188-1/4x20-0.75-PASS" ∧
    "PASS" ∈ strSplitChar '-' (generate_name passDriveRecord) := by
  refine ⟨rfl, rfl, rfl, ?_⟩
  rw [show generate_name passDriveRecord = "BHS-SS188-1/4x20-0.75-PASS" from rfl]
  decide

/-- C5 amended: it is the *Finish field* that never yields a `PASS`
token.  For any field name equal to `Finish` up to ASCII case, the
token produced by `process_legacy_specification` is exactly the
abbreviation of the resolved finish (the direct value if non-empty,
else the finish extracted from the material) — unless that resolved
finish is empty, abbreviates to the empty string, or abbreviates to
`PASS`, in which cases no token is produced.  So `PASS` is the only
non-empty finish abbreviation that is suppressed, but other fields of
the record can still contribute a `PASS` token to the name (see the
counterexample). -/
theorem c5_amended_finish_token (product : ProductDetail) (template : NamingTemplate)
    (template_category value : String) (extracted_finish : Option String)
    (spec_name : String) (h : strEqIgnoreCase spec_name "Finish" = true) :
    (process_legacy_specification product template template_category
        spec_name value extracted_finish).1 =
      (let fv := if value ≠ "" then value else extracted_finish.getD ""
       let ab := (List.lookup fv template.spec_abbreviations).getD (abbreviate_value fv)
       if fv ≠ "" ∧ ab ≠ "" ∧ ab ≠ "PASS" then some ab else none) := by
  unfold process_legacy_specification
  rw [finish_name_not_material spec_name h, h]
  simp only [Bool.false_eq_true, if_false, if_true]
  generalize (if value ≠ "" then value else extracted_finish.getD "") = fv
  generalize ((List.lookup fv template.spec_abbreviations).getD (abbreviate_value fv)) = ab
  by_cases h1 : fv = ""
  · subst h1; simp
  · by_cases h2 : ab = ""
    · subst h2; simp [h1]
    · by_cases h3 : ab = "PASS"
      · subst h3; simp [h1, h2]
      · simp [h1, h2, h3]

/-- C5 amended, witness: a direct `Zinc Plated` finish on the
button-head template produces the token `ZP`. -/
theorem c5_amended_finish_token_witness :
    (process_legacy_specification buttonHeadRecord (mkScrewTemplate "BHS" screwKeySpecs)
        "button_head_screw" "Finish" "Zinc Plated" none).1 = some "ZP" := by
  rw [c5_amended_finish_token buttonHeadRecord (mkScrewTemplate "BHS" screwKeySpecs)
    "button_head_screw" "Zinc Plated" none "Finish" (by decide)]
  decide

/-- A record whose family description matches no classifier keyword
(claim C8, witness). -/
def smokeRecord : ProductDetail :=
  { part_number := "X1", detail_description := "",
    family_description := "Left Handed Smoke Shifter, Deluxe Model",
    product_category := "", product_status := "", specifications := [] }

/-- A record with an empty family description (claim C8, witness). -/
def emptyFamilyRecord : ProductDetail :=
  { part_number := "X2", detail_description := "",
    family_description := "", product_category := "",
    product_status := "", specifications := [] }

/-- C8: whenever the detected category key has no template in the
registry, `generate_name` returns the fallback name, which always
succeeds and equals the first four whitespace-separated words of the
family description joined with `-`, uppercased and with commas
stripped, followed by `-` and the part number — or
`UNKNOWN-<part_number>` when the family description has no words (in
particular when it is empty). -/
theorem c8_fallback_naming (product : ProductDetail)
    (h : List.lookup (determine_category product) category_templates = none) :
    generate_name product = fallback_name product ∧
    fallback_name product =
      (if splitWhitespaceStr product.family_description = [] then
        "UNKNOWN-" ++ product.part_number
       else
        replaceStr (strToUpper (joinSep "-"
          ((splitWhitespaceStr product.family_description).take 4))) "," "" ++
          "-" ++ product.part_number) ∧
    (product.family_description = "" →
      fallback_name product = "UNKNOWN-" ++ product.part_number) := by
  refine ⟨?_, ?_, ?_⟩
  · simp only [generate_name]
    rw [h]
  · unfold fallback_name
    by_cases hs : splitWhitespaceStr product.family_description = []
    · simp [hs]
    · have ht : (splitWhitespaceStr product.family_description).take 4 ≠ [] := by
        simp only [ne_eq, List.take_eq_nil_iff]
        simp [hs]
      simp [hs, ht]
  · intro he
    have hs : splitWhitespaceStr product.family_description = [] := by
      rw [he]; rfl
    unfold fallback_name
    simp [hs]

/-- C8 witness: the fallback applies to a record with no recognized
keyword and to one with an empty family description. -/
theorem c8_fallback_naming_witness :
    generate_name smokeRecord = "LEFT-HANDED-SMOKE-SHIFTER-X1" ∧
    generate_name emptyFamilyRecord = "UNKNOWN-X2" := by
  have h1 := c8_fallback_naming smokeRecord (by decide)
  have h2 := c8_fallback_naming emptyFamilyRecord (by decide)
  exact ⟨h1.1.trans (by decide), (h2.1.trans (h2.2.2 rfl)).trans (by decide)⟩

/-- Substring containment is transitive along a fixed inclusion. -/
theorem strContains_of_sub {s small big : String}
    (hsub : small.data <:+: big.data) (h : strContains s big = true) :
    strContains s small = true := by
  unfold strContains at h ⊢
  exact decide_eq_true (hsub.trans (of_decide_eq_true h))

/-- The ultra-low branch of the socket-head waterfall collapses: any
family text containing `ultra low socket head` (resp. `ultra
low-profile socket head`) also contains `low socket head` (resp.
`low-profile socket head`), so the earlier branch always fires first. -/
theorem low_ultra_collapse (fl r1 r2 rest : String) :
    (if ((strContains fl "low socket head" || strContains fl "low-profile socket head") &&
          strContains fl "screw") = true then r1
     else if ((strContains fl "ultra low socket head" ||
               strContains fl "ultra low-profile socket head") &&
              strContains fl "screw") = true then r2
     else rest) =
    (if ((strContains fl "low socket head" || strContains fl "low-profile socket head") &&
          strContains fl "screw") = true then r1
     else rest) := by
  by_cases hl : ((strContains fl "low socket head" ||
      strContains fl "low-profile socket head") && strContains fl "screw") = true
  · simp [hl]
  · have hu : ¬ (((strContains fl "ultra low socket head" ||
        strContains fl "ultra low-profile socket head") &&
        strContains fl "screw") = true) := by
      intro hc
      rw [Bool.and_eq_true, Bool.or_eq_true] at hc
      apply hl
      rw [Bool.and_eq_true, Bool.or_eq_true]
      refine ⟨?_, hc.2⟩
      rcases hc.1 with h1 | h2
      · exact Or.inl (strContains_of_sub (by decide) h1)
      · exact Or.inr (strContains_of_sub (by decide) h2)
    simp [hl, hu]

/-- An if-then-else differs from `t` when both branches do; applying
this repeatedly walks a classification waterfall without ever
normalizing its conditions. -/
theorem ne_ite {c : Prop} [Decidable c] {a b t : String}
    (ha : a ≠ t) (hb : b ≠ t) : (if c then a else b) ≠ t := by
  by_cases h : c
  · simpa [h] using ha
  · simpa [h] using hb

/-- The washer sub-waterfall never yields the ultra-low key. -/
theorem washer_type_ne_ultra (fl : String) :
    determine_washer_type fl ≠ "ultra_low_socket_head_screw" := by
  unfold determine_washer_type
  repeat' apply ne_ite
  all_goals decide

/-- The nut sub-waterfall never yields the ultra-low key. -/
theorem nut_type_ne_ultra (fl : String) :
    determine_nut_type fl ≠ "ultra_low_socket_head_screw" := by
  unfold determine_nut_type
  repeat' apply ne_ite
  all_goals decide

/-- The spacer sub-waterfall never yields the ultra-low key. -/
theorem spacer_type_ne_ultra (fl : String) :
    determine_spacer_type fl ≠ "ultra_low_socket_head_screw" := by
  unfold determine_spacer_type
  repeat' apply ne_ite
  all_goals decide

/-- The standoff sub-waterfall never yields the ultra-low key. -/
theorem standoff_type_ne_ultra (fl : String) :
    determine_standoff_type fl ≠ "ultra_low_socket_head_screw" := by
  unfold determine_standoff_type
  repeat' apply ne_ite
  all_goals decide

/-- The bearing sub-waterfall never yields the ultra-low key. -/
theorem bearing_type_ne_ultra (product : ProductDetail) :
    determine_bearing_type product ≠ "ultra_low_socket_head_screw" := by
  simp only [determine_bearing_type]
  repeat' apply ne_ite
  all_goals decide

/-- The pin sub-waterfall never yields the ultra-low key. -/
theorem pin_type_ne_ultra (fl : String) :
    determine_pin_type fl ≠ "ultra_low_socket_head_screw" := by
  unfold determine_pin_type
  repeat' apply ne_ite
  all_goals decide

/-- The shaft-collar sub-waterfall never yields the ultra-low key. -/
theorem shaft_collar_type_ne_ultra (fl : String) :
    determine_shaft_collar_type fl ≠ "ultra_low_socket_head_screw" := by
  unfold determine_shaft_collar_type
  repeat' apply ne_ite
  all_goals decide

/-- The pulley sub-waterfall never yields the ultra-low key. -/
theorem pulley_type_ne_ultra (fl : String) :
    determine_pulley_type fl ≠ "ultra_low_socket_head_screw" := by
  unfold determine_pulley_type
  repeat' apply ne_ite
  all_goals decide

/-- C10: `determine_category` never returns
`ultra_low_socket_head_screw`.  Any lower-cased family description
containing `ultra low socket head` or `ultra low-profile socket head`
also contains `low socket head` resp. `low-profile socket head`, so the
earlier low-socket-head branch of the waterfall always fires first; the
ultra-low branch is unreachable and every other branch returns a
different key. -/
theorem c10_ultra_low_unreachable (product : ProductDetail) :
    determine_category product ≠ "ultra_low_socket_head_screw" := by
  simp only [determine_category]
  rw [low_ultra_collapse]
  repeat' apply ne_ite
  all_goals
    first
      | decide
      | exact washer_type_ne_ultra _
      | exact nut_type_ne_ultra _
      | exact spacer_type_ne_ultra _
      | exact standoff_type_ne_ultra _
      | exact bearing_type_ne_ultra _
      | exact pin_type_ne_ultra _
      | exact shaft_collar_type_ne_ultra _
      | exact pulley_type_ne_ultra _

/-! ## Claim C9: only the first value of each specification is consulted

The proof factors through a truncation operator: every engine function
is shown invariant under replacing each specification's value list by
its first element, and two records that agree on attributes and first
values have equal truncations. -/

/-- Keep only the first value of a specification. -/
def truncSpec (s : Specification) : Specification :=
  ⟨s.attr, s.values.head?.toList⟩

/-- Keep only the first value of every specification of a record. -/
def truncateRecord (p : ProductDetail) : ProductDetail :=
  ⟨p.part_number, p.detail_description, p.family_description,
   p.product_category, p.product_status, p.specifications.map truncSpec⟩

/-- What the engine reads from a specification: its attribute and its
first value. -/
def specView (s : Specification) : String × Option String :=
  (s.attr, s.values.head?)

/-- The claim's relation: two records identical except for the elements
after the first in some specifications' value sequences. -/
def recordsAgree (p q : ProductDetail) : Prop :=
  p.part_number = q.part_number ∧
  p.detail_description = q.detail_description ∧
  p.family_description = q.family_description ∧
  p.product_category = q.product_category ∧
  p.product_status = q.product_status ∧
  p.specifications.map specView = q.specifications.map specView

theorem truncateRecord_part_number (p : ProductDetail) :
    (truncateRecord p).part_number = p.part_number := rfl

theorem truncateRecord_detail (p : ProductDetail) :
    (truncateRecord p).detail_description = p.detail_description := rfl

theorem truncateRecord_family (p : ProductDetail) :
    (truncateRecord p).family_description = p.family_description := rfl

theorem truncateRecord_category (p : ProductDetail) :
    (truncateRecord p).product_category = p.product_category := rfl

theorem truncateRecord_specifications (p : ProductDetail) :
    (truncateRecord p).specifications = p.specifications.map truncSpec := rfl

theorem truncSpec_headValue (s : Specification) :
    (truncSpec s).values.head? = s.values.head? := by
  cases s with
  | mk a vs => cases vs <;> rfl

/-- Searching the truncated specifications with a truncation-invariant
predicate finds the truncation of what the original search finds. -/
theorem find?_trunc (l : List Specification) (f : Specification → Bool)
    (hf : ∀ s, f (truncSpec s) = f s) :
    (l.map truncSpec).find? f = (l.find? f).map truncSpec := by
  rw [List.find?_map]
  have hfe : f ∘ truncSpec = f := funext hf
  rw [hfe]

/-- The case-insensitive attribute searches are truncation-invariant. -/
theorem find?_eqIgnore_trunc (l : List Specification) (n : String) :
    (l.map truncSpec).find? (fun s => strEqIgnoreCase s.attr n) =
      (l.find? (fun s => strEqIgnoreCase s.attr n)).map truncSpec :=
  find?_trunc l _ (fun _ => rfl)

/-- The case-sensitive attribute searches are truncation-invariant. -/
theorem find?_eqAttr_trunc (l : List Specification) (n : String) :
    (l.map truncSpec).find? (fun s => s.attr == n) =
      (l.find? (fun s => s.attr == n)).map truncSpec :=
  find?_trunc l _ (fun _ => rfl)

/-- The threads-per-inch attribute search is truncation-invariant. -/
theorem find?_tpi_trunc (l : List Specification) :
    (l.map truncSpec).find?
        (fun s => strContains s.attr "Threads per Inch" ||
          strContains s.attr "threads per inch") =
      (l.find? (fun s => strContains s.attr "Threads per Inch" ||
          strContains s.attr "threads per inch")).map truncSpec :=
  find?_trunc l _ (fun _ => rfl)

/-- `determine_bearing_type` only reads attributes and first values. -/
theorem determine_bearing_type_trunc (p : ProductDetail) :
    determine_bearing_type (truncateRecord p) = determine_bearing_type p := by
  unfold determine_bearing_type
  rw [truncateRecord_family, truncateRecord_category, truncateRecord_detail,
    truncateRecord_specifications]
  simp only [find?_eqIgnore_trunc]
  cases hp : p.specifications.find? (fun s => strEqIgnoreCase s.attr "Plain Bearing Type") with
  | none =>
    cases hm : p.specifications.find?
        (fun s => strEqIgnoreCase s.attr "Mounted Bearing Type") with
    | none => rfl
    | some ms => simp [truncSpec_headValue]
  | some ps =>
    cases hm : p.specifications.find?
        (fun s => strEqIgnoreCase s.attr "Mounted Bearing Type") with
    | none => simp [truncSpec_headValue]
    | some ms => simp [truncSpec_headValue]

/-- `determine_category` only reads attributes and first values. -/
theorem determine_category_trunc (p : ProductDetail) :
    determine_category (truncateRecord p) = determine_category p := by
  simp only [determine_category, truncateRecord_family, truncateRecord_category,
    determine_bearing_type_trunc]

/-- `get_steel_grade_material` only reads attributes and first
values. -/
theorem get_steel_grade_material_trunc (p : ProductDetail) (m : String) :
    get_steel_grade_material (truncateRecord p) m = get_steel_grade_material p m := by
  unfold get_steel_grade_material
  rw [truncateRecord_specifications]
  simp only [find?_eqIgnore_trunc]
  cases hp : p.specifications.find?
      (fun s => strEqIgnoreCase s.attr "Fastener Strength Grade/Class") with
  | none => rfl
  | some gs => simp [truncSpec_headValue]

/-- `extract_thread_with_pitch` only reads the detail description and
attributes and first values. -/
theorem extract_thread_with_pitch_trunc (p : ProductDetail) (ts : String) :
    extract_thread_with_pitch (truncateRecord p) ts = extract_thread_with_pitch p ts := by
  unfold extract_thread_with_pitch
  rw [truncateRecord_detail, truncateRecord_specifications]
  simp only [find?_eqIgnore_trunc, find?_tpi_trunc]
  cases hp : p.specifications.find? (fun s => strEqIgnoreCase s.attr "Thread Pitch") with
  | none =>
    cases ht : p.specifications.find?
        (fun s => strContains s.attr "Threads per Inch" ||
          strContains s.attr "threads per inch") with
    | none => rfl
    | some ti => simp [truncSpec_headValue]
  | some ps =>
    cases ht : p.specifications.find?
        (fun s => strContains s.attr "Threads per Inch" ||
          strContains s.attr "threads per inch") with
    | none => simp [truncSpec_headValue]
    | some ti => simp [truncSpec_headValue]

/-- `process_legacy_specification` only reads attributes and first
values of the record. -/
theorem process_legacy_specification_trunc (p : ProductDetail) (t : NamingTemplate)
    (tc n v : String) (ef : Option String) :
    process_legacy_specification (truncateRecord p) t tc n v ef =
      process_legacy_specification p t tc n v ef := by
  unfold process_legacy_specification
  rw [truncateRecord_specifications]
  simp only [find?_eqIgnore_trunc, get_steel_grade_material_trunc,
    extract_thread_with_pitch_trunc]
  cases hf : p.specifications.find? (fun s => strEqIgnoreCase s.attr "Filler Material") with
  | none => rfl
  | some fs => simp [truncSpec_headValue]

/-- The alias loop of the assembler's resolution commutes with
truncation. -/
theorem findAliasSpec_trunc (p : ProductDetail) (al : List String) :
    findAliasSpec (truncateRecord p) al =
      (findAliasSpec p al).map (fun x => (truncSpec x.1, x.2)) := by
  induction al with
  | nil => rfl
  | cons a rest ih =>
    unfold findAliasSpec
    rw [truncateRecord_specifications]
    simp only [find?_eqIgnore_trunc]
    cases hf : p.specifications.find? (fun s => strEqIgnoreCase s.attr a) with
    | none => simpa using ih
    | some sp => simp

/-- The assembler's resolution commutes with truncation. -/
theorem find_specification_with_aliases_trunc (p : ProductDetail) (n : String)
    (t : NamingTemplate) :
    find_specification_with_aliases (truncateRecord p) n t =
      (find_specification_with_aliases p n t).map (fun x => (truncSpec x.1, x.2)) := by
  obtain ⟨pf, ks, sa, ab⟩ := t
  cases sa with
  | none =>
    unfold find_specification_with_aliases
    rw [truncateRecord_specifications]
    simp only [find?_eqIgnore_trunc]
    cases hf : p.specifications.find? (fun s => strEqIgnoreCase s.attr n) <;> simp
  | some aliases =>
    unfold find_specification_with_aliases
    rw [truncateRecord_specifications]
    simp only [find?_eqIgnore_trunc]
    cases hf : p.specifications.find? (fun s => strEqIgnoreCase s.attr n) with
    | some sp => simp
    | none =>
      simp only [Option.map_none]
      cases hl : List.lookup n aliases with
      | none => simp
      | some al => simp [findAliasSpec_trunc p al]

/-- One template-application step only reads attributes and first
values. -/
theorem applyTemplateStep_trunc (p : ProductDetail) (t : NamingTemplate)
    (tc : String) (acc : List String × Option String) (n : String) :
    applyTemplateStep (truncateRecord p) t tc acc n = applyTemplateStep p t tc acc n := by
  unfold applyTemplateStep
  rw [find_specification_with_aliases_trunc]
  simp only [process_legacy_specification_trunc]
  cases hf : find_specification_with_aliases p n t with
  | none => rfl
  | some x => simp [truncSpec_headValue]

/-- The template-application fold only reads attributes and first
values. -/
theorem foldl_applyTemplateStep_trunc (p : ProductDetail) (t : NamingTemplate)
    (tc : String) (l : List String) (acc : List String × Option String) :
    l.foldl (applyTemplateStep (truncateRecord p) t tc) acc =
      l.foldl (applyTemplateStep p t tc) acc := by
  induction l generalizing acc with
  | nil => rfl
  | cons a rest ih =>
    rw [List.foldl_cons, List.foldl_cons, applyTemplateStep_trunc, ih]

/-- `apply_template` only reads attributes and first values. -/
theorem apply_template_trunc (p : ProductDetail) (t : NamingTemplate) (tc : String) :
    apply_template (truncateRecord p) t tc = apply_template p t tc := by
  unfold apply_template
  rw [foldl_applyTemplateStep_trunc]

/-- `fallback_name` reads no specification at all. -/
theorem fallback_name_trunc (p : ProductDetail) :
    fallback_name (truncateRecord p) = fallback_name p := by
  unfold fallback_name
  rw [truncateRecord_family, truncateRecord_part_number]

/-- `generate_name` only reads attributes and first values. -/
theorem generate_name_trunc (p : ProductDetail) :
    generate_name (truncateRecord p) = generate_name p := by
  simp only [generate_name]
  rw [determine_category_trunc]
  cases hl : List.lookup (determine_category p) category_templates with
  | none => exact fallback_name_trunc p
  | some t => exact apply_template_trunc p t _

/-- Records that agree on attributes and first values have equal
truncations. -/
theorem truncateRecord_eq_of_agree {p q : ProductDetail} (h : recordsAgree p q) :
    truncateRecord p = truncateRecord q := by
  obtain ⟨h1, h2, h3, h4, h5, h6⟩ := h
  unfold truncateRecord
  rw [h1, h2, h3, h4, h5]
  have hm : ∀ l : List Specification,
      l.map truncSpec = (l.map specView).map (fun v => ⟨v.1, v.2.toList⟩) := by
    intro l
    rw [List.map_map]
    rfl
  rw [hm p.specifications, hm q.specifications, h6]

/-- C9: only the first value of each specification is consulted.  Two
records that are identical except for the elements after the first in
some specifications' value sequences receive the same category and the
same generated name. -/
theorem c9_first_values_noninterference (p q : ProductDetail) (h : recordsAgree p q) :
    determine_category p = determine_category q ∧
    generate_name p = generate_name q := by
  have ht := truncateRecord_eq_of_agree h
  constructor
  · rw [← determine_category_trunc p, ← determine_category_trunc q, ht]
  · rw [← generate_name_trunc p, ← generate_name_trunc q, ht]

/-- A record with trailing specification values (claim C9, witness). -/
def trailingValuesRecordA : ProductDetail :=
  { part_number := "91251A540", detail_description := "",
    family_description := "Button Head Socket Cap Screw",
    product_category := "", product_status := "",
    specifications :=
      [⟨"Material", ["18-8 Stainless Steel", "ignored"]⟩,
       ⟨"Thread Size", ["1/4-20"]⟩,
       ⟨"Length", ["3/4\x22", "7/8\x22"]⟩,
       ⟨"Drive Style", ["Hex"]⟩] }

/-- The same record with different trailing values (claim C9,
witness). -/
def trailingValuesRecordB : ProductDetail :=
  { part_number := "91251A540", detail_description := "",
    family_description := "Button Head Socket Cap Screw",
    product_category := "", product_status := "",
    specifications :=
      [⟨"Material", ["18-8 Stainless Steel"]⟩,
       ⟨"Thread Size", ["1/4-20", "M6"]⟩,
       ⟨"Length", ["3/4\x22"]⟩,
       ⟨"Drive Style", ["Hex", "Phillips", "Torx"]⟩] }

/-- C9 witness: two concrete records differing only in trailing values
classify and name identically. -/
theorem c9_first_values_noninterference_witness :
    determine_category trailingValuesRecordA = determine_category trailingValuesRecordB ∧
    generate_name trailingValuesRecordA = generate_name trailingValuesRecordB :=
  c9_first_values_noninterference trailingValuesRecordA trailingValuesRecordB
    (by unfold recordsAgree specView; decide)
